import Mathlib

/-!
Verification of `lib/video_filename_parser.py`: the filename-metadata
decoder (`parse_video_filename`), the strict gender lookup (`get_gender`)
and the directory reorganizer (`convert_structure`).

Strings are modelled as Lean `String`s; Python's string primitives used by
the source (`str.rsplit(".", 1)[0]`, `str.split("_")`, `str.strip()`,
`str.lower()`, `str.endswith`) are embedded as executable functions on the
underlying character lists.  Python dicts become association lists in
insertion order, so `dict.get(k, default)` becomes an ordered lookup with a
default and iteration over `Gender.items()` becomes `List.find?` over the
association list.  Filesystem paths are kept as lists of components, which
models `os.path.join` applied to those components.
-/

deriving instance DecidableEq for Except

namespace VideoFilename

/-- Python `s.split(sep)` for a single-character separator, on character
lists: `split` of the empty string is `[[]]` (one empty field). -/
def splitOnChar (c : Char) : List Char → List (List Char)
  | [] => [[]]
  | x :: xs =>
    if x = c then [] :: splitOnChar c xs
    else
      match splitOnChar c xs with
      | [] => [[x]]
      | h :: t => (x :: h) :: t

/-- Python `s.split(sep)` for a one-character separator, on `String`. -/
def pySplit (c : Char) (s : String) : List String :=
  (splitOnChar c s.data).map fun l => ⟨l⟩

/-- Python `s.strip()`: remove leading and trailing whitespace. -/
def pyStrip (s : String) : String :=
  ⟨((s.data.dropWhile Char.isWhitespace).reverse.dropWhile Char.isWhitespace).reverse⟩

/-- `filename.rsplit(".", 1)[0] if "." in filename else filename`
(line 108 of the source): everything before the last dot, or the whole
string when there is no dot. -/
def stripExt (s : String) : String :=
  if s.data.contains '.' then
    ⟨(((s.data.reverse).dropWhile fun c => c != '.').drop 1).reverse⟩
  else s

/-- `EMOTION_DICT` (source lines 7–15). -/
def EMOTION_DICT : List (String × String) :=
  [("A", "Anger"), ("D", "Disgust"), ("F", "Fear"), ("H", "Happy"),
   ("Ha", "Happy"), ("N", "Neutral"), ("S", "Sad")]

/-- `LANGUAGE_DICT` (source lines 17–20). -/
def LANGUAGE_DICT : List (String × String) :=
  [("EN", "English"), ("HI", "Hindi")]

/-- `SPEAKER_NAME_DICT` (source lines 22–48). -/
def SPEAKER_NAME_DICT : List (String × String) :=
  [("A1", "Speaker One"), ("A2", "Speaker Two"), ("A3", "Speaker Three"),
   ("A4", "Speaker Four"), ("A5", "Speaker Five"), ("A6", "Speaker Six"),
   ("A7", "Speaker Seven"), ("A8", "Speaker Eight"), ("A9", "Speaker Nine"),
   ("A10", "Speaker Ten"), ("A11", "Speaker Eleven"), ("A12", "Speaker Twelve"),
   ("A13", "Speaker Thirteen"), ("A14", "Speaker Fourteen"),
   ("A15", "Speaker Fifteen"), ("A16", "Speaker Sixteen"),
   ("A17", "Speaker Seventeen"), ("A18", "Speaker Eighteen"),
   ("A19", "Speaker Nineteen"), ("A20", "Speaker Twenty"),
   ("A21", "Speaker Twenty One"), ("A22", "Speaker Twenty Two"),
   ("A23", "Speaker Twenty Three"), ("A24", "Speaker Twenty Four"),
   ("A25", "Speaker Twenty Five")]

/-- `SENTENCE_DICT` (source lines 50–69). -/
def SENTENCE_DICT : List (String × String) :=
  [("S1", "Can\x27t you hear my voice?"),
   ("S2", "I tried to resolve this issue from my end."),
   ("S3", "My electricity bill is not yet updated."),
   ("S4", "How much time is needed to update my account details?"),
   ("S5", "I no longer want to use your services."),
   ("S6", "No, I haven\x27t received any updates."),
   ("S7", "No, that\x27s fine."),
   ("S8", "Okay, but make it quick."),
   ("S9", "I am busy. You can call me later."),
   ("S10", "Yes, who is calling?"),
   ("S11", "I hope it will work fine now"),
   ("S12", "Okay, what do I have to do?"),
   ("S13", "Fine, send your executive at 10:00 a.m. tomorrow."),
   ("S14", "I got the wrong electricity bill."),
   ("S15", "Okay, I have all these things ready."),
   ("S16", "I have been waiting long to connect."),
   ("S17", "Can you fix it fast?"),
   ("S18", "Well, can you help me?")]

/-- `Gender` (source lines 71–101): gender label → list of speaker codes,
in the dict's insertion order (`"M"` first, then `"F"`). -/
def Gender : List (String × List String) :=
  [("M", ["A1", "A2", "A5", "A8", "A9", "A11", "A12", "A14", "A15", "A16",
          "A20", "A22", "A23"]),
   ("F", ["A3", "A4", "A6", "A7", "A10", "A13", "A17", "A18", "A19", "A21",
          "A24", "A25"])]

/-- Python `d.get(k, k)`: look `k` up in the association list, defaulting to
`k` itself when absent. -/
def dictGet (d : List (String × String)) (k : String) : String :=
  (d.lookup k).getD k

/-- The record returned by `parse_video_filename` (source lines 116–126 and
141–151). -/
structure DecodedFilename where
  speaker : String
  speaker_name : String
  gender : String
  language : String
  language_full : String
  emotion : String
  emotion_full : String
  detail : String
  sentence : String
deriving DecidableEq, Repr

/-- The fallback record returned when the field count is not 4 (source
lines 116–126). -/
def fallbackRecord : DecodedFilename :=
  { speaker := "unknown", speaker_name := "Unknown Speaker",
    gender := "Unknown", language := "unknown",
    language_full := "Unknown Language", emotion := "unknown",
    emotion_full := "Unknown Emotion", detail := "unknown",
    sentence := "Unknown sentence" }

/-- The gender-resolution loop of `parse_video_filename` (source lines
135–139): the label of the first group of `Gender` containing the speaker
code, or `"Unknown"` when no group contains it. -/
def genderScan (speaker : String) : String :=
  match Gender.find? fun p => p.2.contains speaker with
  | some p => p.1
  | none => "Unknown"

/-- `parse_video_filename` (source lines 104–151). -/
def parse_video_filename (filename : String) : DecodedFilename :=
  let base := stripExt filename
  let parts := pySplit '_' base
  match parts with
  | [p1, p2, p3, p4] =>
    let speaker := pyStrip p1
    let language := pyStrip p2
    let emotion_code := pyStrip p3
    let detail := pyStrip p4
    { speaker := speaker
      speaker_name := dictGet SPEAKER_NAME_DICT speaker
      gender := genderScan speaker
      language := language
      language_full := dictGet LANGUAGE_DICT language
      emotion := emotion_code
      emotion_full := dictGet EMOTION_DICT emotion_code
      detail := detail
      sentence := dictGet SENTENCE_DICT detail }
  | _ => fallbackRecord

/-- `get_gender` (source lines 154–161): `Except.error` models the raised
`ValueError` with its message. -/
def get_gender (speaker : String) : Except String String :=
  match Gender.find? fun p => p.2.contains speaker with
  | some p => Except.ok p.1
  | none => Except.error ("Unknown gender for speaker: " ++ speaker)

example : parse_video_filename "A1_EN_H_S1.mp4" =
    { speaker := "A1", speaker_name := "Speaker One", gender := "M",
      language := "EN", language_full := "English", emotion := "H",
      emotion_full := "Happy", detail := "S1",
      sentence := "Can\x27t you hear my voice?" } := by decide

example : parse_video_filename "A1_EN.mp4" = fallbackRecord := by decide

example : get_gender "A3" = Except.ok "F" := by decide

example : get_gender "Z1" = Except.error "Unknown gender for speaker: Z1" := by
  decide

/-! ## The directory reorganizer, `convert_structure` (source lines 164–198)

The walk is abstracted as the list of filenames `os.walk` yields, each
paired with an oracle describing which exception, if any, the two
filesystem calls (`os.makedirs`, `shutil.copy2`) raise for that file.
`parse_video_filename` itself is total and raises nothing.  Python
exception classes are modelled by `PyExc`; the `try` block's propagation is
modelled by `Except`, and the `except (ValueError, KeyError)` clause by
`isCaught`.  A successful copy is recorded as its destination path's
components `[dst_dir, language, gender, emotion, detail, file]`, modelling
`os.path.join(dst_dir, language, gender, emotion, detail)` followed by
`os.path.join(target_dir, file)`. -/

/-- Exception classes relevant to the `try/except` of `convert_structure`:
`ValueError` and `KeyError` (the two caught classes, source line 194) and
`OSError` (what `os.makedirs` and `shutil.copy2` raise on I/O failure). -/
inductive PyExc where
  | valueError
  | keyError
  | osError
deriving DecidableEq, Repr

/-- Per-file filesystem oracle: the exception `os.makedirs` raises for this
file's target directory, if any, and the exception `shutil.copy2` raises,
if any. -/
structure FsOps where
  makedirsExc : Option PyExc
  copyExc : Option PyExc
deriving DecidableEq, Repr

/-- `s.lower()` on the character list. -/
def strLower (s : String) : String :=
  ⟨s.data.map Char.toLower⟩

/-- `s.endswith(suffix)` on the character lists. -/
def strEndsWith (s suffix : String) : Bool :=
  suffix.data.isSuffixOf s.data

/-- The extension allow-list of the tuple at source line 173. -/
def MEDIA_EXTS : List String := [".mp4", ".avi", ".mov"]

/-- `file.lower().endswith((".mp4", ".avi", ".mov"))` (source line 173). -/
def isMediaFile (file : String) : Bool :=
  MEDIA_EXTS.any fun ext => strEndsWith (strLower file) ext

/-- The body of the `try` block (source lines 177–192): parse the filename,
build the target directory from the `language`, `gender`, `emotion` and
`detail` fields, run `os.makedirs`, run `shutil.copy2`; on success return
the copied file's destination path components. -/
def processOne (dst_dir file : String) (ops : FsOps) : Except PyExc (List String) :=
  let details := parse_video_filename file
  let target_dir := [dst_dir, details.language, details.gender,
                     details.emotion, details.detail]
  match ops.makedirsExc with
  | some e => Except.error e
  | none =>
    match ops.copyExc with
    | some e => Except.error e
    | none => Except.ok (target_dir ++ [file])

/-- Whether `except (ValueError, KeyError)` (source line 194) catches the
exception. -/
def isCaught : PyExc → Bool
  | .valueError => true
  | .keyError => true
  | .osError => false

/-- The reorganizer's running state: the two counters and the list of
completed copies (each the destination path components of one copied
file). -/
structure ConvState where
  success_count : Nat
  error_count : Nat
  copies : List (List String)
deriving DecidableEq, Repr

/-- One iteration of the inner loop of `convert_structure` (source lines
172–196): skip non-media files; otherwise run the `try` block, and on an
exception either count it (when `except (ValueError, KeyError)` catches
it) or propagate it out of the walk. -/
def convertStep (dst_dir : String) (st : ConvState) (f : String × FsOps) :
    Except PyExc ConvState :=
  if isMediaFile f.1 then
    match processOne dst_dir f.1 f.2 with
    | Except.ok tgt =>
      Except.ok { st with success_count := st.success_count + 1,
                          copies := st.copies ++ [tgt] }
    | Except.error e =>
      if isCaught e then
        Except.ok { st with error_count := st.error_count + 1 }
      else Except.error e
  else Except.ok st

/-- The walk over the remaining files: an uncaught exception aborts it. -/
def convertLoop (dst_dir : String) :
    ConvState → List (String × FsOps) → Except PyExc ConvState
  | st, [] => Except.ok st
  | st, f :: rest =>
    match convertStep dst_dir st f with
    | Except.ok st₂ => convertLoop dst_dir st₂ rest
    | Except.error e => Except.error e

/-- `convert_structure` (source lines 164–198) over the abstracted walk:
returns the final counters and copies, or the uncaught exception that
aborted the walk. -/
def convert_structure (dst_dir : String) (files : List (String × FsOps)) :
    Except PyExc ConvState :=
  convertLoop dst_dir ⟨0, 0, []⟩ files

example :
    convert_structure "dst"
      [("A1_EN_H_S1.mp4", ⟨none, none⟩), ("notes.txt", ⟨none, none⟩)] =
      Except.ok ⟨1, 0, [["dst", "EN", "M", "H", "S1", "A1_EN_H_S1.mp4"]]⟩ := by
  decide

/-! ## Supporting lemmas -/

theorem splitOnChar_of_not_mem {c : Char} {xs : List Char} (h : c ∉ xs) :
    splitOnChar c xs = [xs] := by
  induction xs with
  | nil => rfl
  | cons x xs ih =>
    simp only [List.mem_cons, not_or] at h
    rw [splitOnChar, if_neg (fun hx => h.1 hx.symm), ih h.2]

theorem splitOnChar_append {c : Char} {xs ys : List Char} (h : c ∉ xs) :
    splitOnChar c (xs ++ c :: ys) = xs :: splitOnChar c ys := by
  induction xs with
  | nil => simp [splitOnChar]
  | cons x xs ih =>
    simp only [List.mem_cons, not_or] at h
    rw [List.cons_append, splitOnChar, if_neg (fun hx => h.1 hx.symm),
      ih h.2]

theorem pySplit_four {S L E D : String} (h1 : '_' ∉ S.data)
    (h2 : '_' ∉ L.data) (h3 : '_' ∉ E.data) (h4 : '_' ∉ D.data) :
    pySplit '_' (S ++ "_" ++ L ++ "_" ++ E ++ "_" ++ D) = [S, L, E, D] := by
  have hdata : (S ++ "_" ++ L ++ "_" ++ E ++ "_" ++ D).data =
      S.data ++ '_' :: (L.data ++ '_' :: (E.data ++ '_' :: D.data)) := by
    simp [String.data_append]
  rw [pySplit, hdata, splitOnChar_append h1, splitOnChar_append h2,
    splitOnChar_append h3, splitOnChar_of_not_mem h4]
  rfl

theorem stripExt_concat {b ext : String} (h : '.' ∉ ext.data) :
    stripExt (b ++ "." ++ ext) = b := by
  have hdata : (b ++ "." ++ ext).data = b.data ++ '.' :: ext.data := by
    simp [String.data_append]
  have hdrop : (ext.data.reverse).dropWhile (fun c => c != '.') = [] := by
    rw [List.dropWhile_eq_nil_iff]
    intro x hx
    simp only [List.mem_reverse] at hx
    simp only [bne_iff_ne, ne_eq]
    exact fun hE => h (hE ▸ hx)
  rw [stripExt, if_pos]
  · apply String.ext
    rw [hdata]
    simp only [List.reverse_append, List.reverse_cons, List.append_assoc,
      List.singleton_append]
    rw [List.dropWhile_append, hdrop]
    simp
  · rw [hdata]
    simp [List.contains]

theorem parse_eq_of_split {filename s l e d : String}
    (h : pySplit '_' (stripExt filename) = [s, l, e, d]) :
    parse_video_filename filename =
      { speaker := pyStrip s,
        speaker_name := dictGet SPEAKER_NAME_DICT (pyStrip s),
        gender := genderScan (pyStrip s),
        language := pyStrip l,
        language_full := dictGet LANGUAGE_DICT (pyStrip l),
        emotion := pyStrip e,
        emotion_full := dictGet EMOTION_DICT (pyStrip e),
        detail := pyStrip d,
        sentence := dictGet SENTENCE_DICT (pyStrip d) } := by
  unfold parse_video_filename
  simp only [h]

theorem genderScan_mem {sp g : String} {members : List String}
    (hg : (g, members) ∈ Gender) (hsp : sp ∈ members) : genderScan sp = g := by
  simp only [Gender, List.mem_cons, List.not_mem_nil, or_false,
    Prod.mk.injEq] at hg
  rcases hg with ⟨rfl, rfl⟩ | ⟨rfl, rfl⟩
  · simp [genderScan, Gender, List.find?, List.contains, hsp]
  · have hdis : ∀ x ∈ ["A3", "A4", "A6", "A7", "A10", "A13", "A17", "A18",
        "A19", "A21", "A24", "A25"],
        x ∉ (["A1", "A2", "A5", "A8", "A9", "A11", "A12", "A14", "A15",
          "A16", "A20", "A22", "A23"] : List String) := by
      decide
    simp [genderScan, Gender, List.find?, List.contains, hsp, hdis sp hsp]

theorem genderScan_not_mem {sp : String} (h : ∀ p ∈ Gender, sp ∉ p.2) :
    genderScan sp = "Unknown" := by
  have hf : Gender.find? (fun p => p.2.contains sp) = none :=
    List.find?_eq_none.mpr fun p hp => by
      simpa [List.contains] using h p hp
  unfold genderScan
  rw [hf]

theorem get_gender_find?_none {sp : String} (h : ∀ p ∈ Gender, sp ∉ p.2) :
    get_gender sp = Except.error ("Unknown gender for speaker: " ++ sp) := by
  have hf : Gender.find? (fun p => p.2.contains sp) = none :=
    List.find?_eq_none.mpr fun p hp => by
      simpa [List.contains] using h p hp
  unfold get_gender
  rw [hf]

theorem genderScan_versus_get_gender (sp : String) :
    (∀ g, get_gender sp = Except.ok g → genderScan sp = g) ∧
    (genderScan sp = "Unknown" ↔
      get_gender sp = Except.error ("Unknown gender for speaker: " ++ sp)) := by
  cases hf : Gender.find? fun p => p.2.contains sp with
  | none =>
    constructor
    · intro g hg
      unfold get_gender at hg
      rw [hf] at hg
      exact Except.noConfusion hg
    · unfold genderScan get_gender
      rw [hf]
      simp
  | some p =>
    have hp := List.mem_of_find?_eq_some hf
    have hlabel : p.1 = "M" ∨ p.1 = "F" := by
      rcases p with ⟨a, b⟩
      simp only [Gender, List.mem_cons, List.not_mem_nil, or_false,
        Prod.mk.injEq] at hp
      rcases hp with ⟨rfl, _⟩ | ⟨rfl, _⟩
      · exact Or.inl rfl
      · exact Or.inr rfl
    constructor
    · intro g hg
      unfold get_gender at hg
      rw [hf] at hg
      unfold genderScan
      rw [hf]
      injection hg
    · constructor
      · intro hu
        unfold genderScan at hu
        rw [hf] at hu
        have hu₂ : p.1 = "Unknown" := hu
        rcases hlabel with hl | hl <;> rw [hl] at hu₂ <;>
          exact absurd hu₂ (by decide)
      · intro he
        unfold get_gender at he
        rw [hf] at he
        exact Except.noConfusion he

/-! ## Claim theorems -/

/-- C2: whenever the extension-stripped base of the filename does not split
on `_` into exactly four fields, `parse_video_filename` returns the
fallback record, with raw fields `"unknown"`, gender `"Unknown"` and the
four human-readable display fields; being a total function, it never
raises on any input string. -/
theorem parse_malformed (filename : String)
    (h : (pySplit '_' (stripExt filename)).length ≠ 4) :
    parse_video_filename filename =
      { speaker := "unknown", speaker_name := "Unknown Speaker",
        gender := "Unknown", language := "unknown",
        language_full := "Unknown Language", emotion := "unknown",
        emotion_full := "Unknown Emotion", detail := "unknown",
        sentence := "Unknown sentence" } := by
  unfold parse_video_filename
  rcases hL : pySplit '_' (stripExt filename) with
      _ | ⟨p1, _ | ⟨p2, _ | ⟨p3, _ | ⟨p4, _ | ⟨p5, rest⟩⟩⟩⟩⟩ <;>
    simp only [hL] <;> try rfl
  rw [hL] at h
  simp at h

theorem parse_malformed_witness :
    (pySplit '_' (stripExt "A1_EN.mp4")).length ≠ 4 ∧
    parse_video_filename "A1_EN.mp4" =
      { speaker := "unknown", speaker_name := "Unknown Speaker",
        gender := "Unknown", language := "unknown",
        language_full := "Unknown Language", emotion := "unknown",
        emotion_full := "Unknown Emotion", detail := "unknown",
        sentence := "Unknown sentence" } :=
  ⟨by decide, parse_malformed "A1_EN.mp4" (by decide)⟩

/-- C3: for every filename `S_L_E_D.ext` whose four fields carry no
underscore and whose extension carries no dot, when each (trimmed) code is
a key of its lookup table, `parse_video_filename` returns the raw codes in
the raw fields and the table values in the display fields. -/
theorem parse_wellformed (S L E D ext nS nL nE nD : String)
    (h1 : '_' ∉ S.data) (h2 : '_' ∉ L.data) (h3 : '_' ∉ E.data)
    (h4 : '_' ∉ D.data) (h5 : '.' ∉ ext.data)
    (hS : SPEAKER_NAME_DICT.lookup (pyStrip S) = some nS)
    (hL : LANGUAGE_DICT.lookup (pyStrip L) = some nL)
    (hE : EMOTION_DICT.lookup (pyStrip E) = some nE)
    (hD : SENTENCE_DICT.lookup (pyStrip D) = some nD) :
    (parse_video_filename
        (S ++ "_" ++ L ++ "_" ++ E ++ "_" ++ D ++ "." ++ ext)).speaker =
        pyStrip S ∧
    (parse_video_filename
        (S ++ "_" ++ L ++ "_" ++ E ++ "_" ++ D ++ "." ++ ext)).speaker_name =
        nS ∧
    (parse_video_filename
        (S ++ "_" ++ L ++ "_" ++ E ++ "_" ++ D ++ "." ++ ext)).language =
        pyStrip L ∧
    (parse_video_filename
        (S ++ "_" ++ L ++ "_" ++ E ++ "_" ++ D ++ "." ++ ext)).language_full =
        nL ∧
    (parse_video_filename
        (S ++ "_" ++ L ++ "_" ++ E ++ "_" ++ D ++ "." ++ ext)).emotion =
        pyStrip E ∧
    (parse_video_filename
        (S ++ "_" ++ L ++ "_" ++ E ++ "_" ++ D ++ "." ++ ext)).emotion_full =
        nE ∧
    (parse_video_filename
        (S ++ "_" ++ L ++ "_" ++ E ++ "_" ++ D ++ "." ++ ext)).detail =
        pyStrip D ∧
    (parse_video_filename
        (S ++ "_" ++ L ++ "_" ++ E ++ "_" ++ D ++ "." ++ ext)).sentence =
        nD := by
  have hsplit :
      pySplit '_' (stripExt (S ++ "_" ++ L ++ "_" ++ E ++ "_" ++ D ++ "." ++ ext)) =
        [S, L, E, D] := by
    rw [stripExt_concat h5, pySplit_four h1 h2 h3 h4]
  rw [parse_eq_of_split hsplit]
  refine ⟨rfl, ?_, rfl, ?_, rfl, ?_, rfl, ?_⟩ <;>
    simp [dictGet, hS, hL, hE, hD]

theorem parse_wellformed_witness :
    SPEAKER_NAME_DICT.lookup (pyStrip "A1") = some "Speaker One" ∧
    LANGUAGE_DICT.lookup (pyStrip "EN") = some "English" ∧
    EMOTION_DICT.lookup (pyStrip "H") = some "Happy" ∧
    SENTENCE_DICT.lookup (pyStrip "S1") = some "Can\x27t you hear my voice?" ∧
    ((parse_video_filename
        ("A1" ++ "_" ++ "EN" ++ "_" ++ "H" ++ "_" ++ "S1" ++ "." ++ "mp4")).speaker =
        pyStrip "A1" ∧
      (parse_video_filename
        ("A1" ++ "_" ++ "EN" ++ "_" ++ "H" ++ "_" ++ "S1" ++ "." ++ "mp4")).speaker_name =
        "Speaker One" ∧
      (parse_video_filename
        ("A1" ++ "_" ++ "EN" ++ "_" ++ "H" ++ "_" ++ "S1" ++ "." ++ "mp4")).language =
        pyStrip "EN" ∧
      (parse_video_filename
        ("A1" ++ "_" ++ "EN" ++ "_" ++ "H" ++ "_" ++ "S1" ++ "." ++ "mp4")).language_full =
        "English" ∧
      (parse_video_filename
        ("A1" ++ "_" ++ "EN" ++ "_" ++ "H" ++ "_" ++ "S1" ++ "." ++ "mp4")).emotion =
        pyStrip "H" ∧
      (parse_video_filename
        ("A1" ++ "_" ++ "EN" ++ "_" ++ "H" ++ "_" ++ "S1" ++ "." ++ "mp4")).emotion_full =
        "Happy" ∧
      (parse_video_filename
        ("A1" ++ "_" ++ "EN" ++ "_" ++ "H" ++ "_" ++ "S1" ++ "." ++ "mp4")).detail =
        pyStrip "S1" ∧
      (parse_video_filename
        ("A1" ++ "_" ++ "EN" ++ "_" ++ "H" ++ "_" ++ "S1" ++ "." ++ "mp4")).sentence =
        "Can\x27t you hear my voice?") :=
  ⟨by decide, by decide, by decide, by decide,
    parse_wellformed "A1" "EN" "H" "S1" "mp4" "Speaker One" "English"
      "Happy" "Can\x27t you hear my voice?" (by decide) (by decide)
      (by decide) (by decide) (by decide) (by decide) (by decide) (by decide)
      (by decide)⟩

/-- C4: `get_gender` returns `Except.ok g` (the group's label) for every
speaker code listed in some group of `Gender`, and the raised
unknown-speaker `ValueError` — modelled as `Except.error` with the
source's message — for every code absent from all groups; there is no
fallback value. -/
theorem get_gender_total_spec :
    (∀ p ∈ Gender, ∀ sp ∈ p.2, get_gender sp = Except.ok p.1) ∧
    (∀ sp : String, (∀ p ∈ Gender, sp ∉ p.2) →
      get_gender sp = Except.error ("Unknown gender for speaker: " ++ sp)) := by
  constructor
  · decide
  · intro sp h
    exact get_gender_find?_none h

theorem get_gender_total_spec_witness :
    get_gender "A3" = Except.ok "F" ∧
    get_gender "Z1" = Except.error "Unknown gender for speaker: Z1" :=
  ⟨get_gender_total_spec.1 (Gender.get ⟨1, by decide⟩) (by decide) "A3"
      (by decide),
    get_gender_total_spec.2 "Z1" (by decide)⟩

/-- C9: every speaker code belongs to at most one gender group: any two
groups of `Gender` containing a common code carry the same label (so the
`"M"` and `"F"` membership lists are disjoint and the membership scan's
result is independent of scan order). -/
theorem gender_groups_pairwise_disjoint :
    ∀ p ∈ Gender, ∀ q ∈ Gender, ∀ sp ∈ p.2, sp ∈ q.2 → p.1 = q.1 := by
  decide

theorem gender_groups_pairwise_disjoint_witness :
    Gender.get ⟨0, by decide⟩ ∈ Gender ∧
    "A1" ∈ (Gender.get ⟨0, by decide⟩).2 ∧
    (Gender.get ⟨0, by decide⟩).1 = (Gender.get ⟨0, by decide⟩).1 :=
  ⟨by decide, by decide,
    gender_groups_pairwise_disjoint (Gender.get ⟨0, by decide⟩) (by decide)
      (Gender.get ⟨0, by decide⟩) (by decide) "A1" (by decide) (by decide)⟩

/-- C5: on every well-formed four-field filename, the `gender` field of
the decoded record is resolved by membership of the (trimmed) speaker code
in the gender groups: the containing group's label when one contains it,
and the sentinel `"Unknown"` — never a failure — when none does. -/
theorem parse_gender_resolution (filename s l e d : String)
    (hsplit : pySplit '_' (stripExt filename) = [s, l, e, d]) :
    (∀ p ∈ Gender, pyStrip s ∈ p.2 →
      (parse_video_filename filename).gender = p.1) ∧
    ((∀ p ∈ Gender, pyStrip s ∉ p.2) →
      (parse_video_filename filename).gender = "Unknown") := by
  rw [parse_eq_of_split hsplit]
  exact ⟨fun p hp hm => genderScan_mem hp hm, fun h => genderScan_not_mem h⟩

theorem parse_gender_resolution_witness :
    (pySplit '_' (stripExt "A3_EN_H_S1.mp4") = ["A3", "EN", "H", "S1"] ∧
      Gender.get ⟨1, by decide⟩ ∈ Gender ∧
      pyStrip "A3" ∈ (Gender.get ⟨1, by decide⟩).2 ∧
      (parse_video_filename "A3_EN_H_S1.mp4").gender =
        (Gender.get ⟨1, by decide⟩).1) ∧
    (pySplit '_' (stripExt "Z9_EN_H_S1.mp4") = ["Z9", "EN", "H", "S1"] ∧
      (parse_video_filename "Z9_EN_H_S1.mp4").gender = "Unknown") :=
  ⟨⟨by decide, by decide, by decide,
      (parse_gender_resolution "A3_EN_H_S1.mp4" "A3" "EN" "H" "S1"
          (by decide)).1 (Gender.get ⟨1, by decide⟩) (by decide) (by decide)⟩,
    ⟨by decide,
      (parse_gender_resolution "Z9_EN_H_S1.mp4" "Z9" "EN" "H" "S1"
          (by decide)).2 (by decide)⟩⟩

/-- C6: on every well-formed four-field filename, each display field is
the table value when its (trimmed) code is present in the corresponding
lookup table, and the raw code itself verbatim when absent; the four
positions degrade independently. -/
theorem parse_code_passthrough (filename s l e d : String)
    (hsplit : pySplit '_' (stripExt filename) = [s, l, e, d]) :
    ((SPEAKER_NAME_DICT.lookup (pyStrip s) = none →
        (parse_video_filename filename).speaker_name = pyStrip s) ∧
      (LANGUAGE_DICT.lookup (pyStrip l) = none →
        (parse_video_filename filename).language_full = pyStrip l) ∧
      (EMOTION_DICT.lookup (pyStrip e) = none →
        (parse_video_filename filename).emotion_full = pyStrip e) ∧
      (SENTENCE_DICT.lookup (pyStrip d) = none →
        (parse_video_filename filename).sentence = pyStrip d)) ∧
    ((∀ v, SPEAKER_NAME_DICT.lookup (pyStrip s) = some v →
        (parse_video_filename filename).speaker_name = v) ∧
      (∀ v, LANGUAGE_DICT.lookup (pyStrip l) = some v →
        (parse_video_filename filename).language_full = v) ∧
      (∀ v, EMOTION_DICT.lookup (pyStrip e) = some v →
        (parse_video_filename filename).emotion_full = v) ∧
      (∀ v, SENTENCE_DICT.lookup (pyStrip d) = some v →
        (parse_video_filename filename).sentence = v)) := by
  rw [parse_eq_of_split hsplit]
  constructor
  · refine ⟨fun h => ?_, fun h => ?_, fun h => ?_, fun h => ?_⟩ <;>
      simp [dictGet, h]
  · refine ⟨fun v h => ?_, fun v h => ?_, fun v h => ?_, fun v h => ?_⟩ <;>
      simp [dictGet, h]

theorem parse_code_passthrough_witness :
    pySplit '_' (stripExt "Z99_EN_H_S1.mp4") = ["Z99", "EN", "H", "S1"] ∧
    SPEAKER_NAME_DICT.lookup (pyStrip "Z99") = none ∧
    (parse_video_filename "Z99_EN_H_S1.mp4").speaker_name = pyStrip "Z99" ∧
    LANGUAGE_DICT.lookup (pyStrip "EN") = some "English" ∧
    (parse_video_filename "Z99_EN_H_S1.mp4").language_full = "English" :=
  ⟨by decide, by decide,
    (parse_code_passthrough "Z99_EN_H_S1.mp4" "Z99" "EN" "H" "S1"
        (by decide)).1.1 (by decide),
    by decide,
    (parse_code_passthrough "Z99_EN_H_S1.mp4" "Z99" "EN" "H" "S1"
        (by decide)).2.2.1 "English" (by decide)⟩

/-- C10: on every well-formed four-field filename the lenient gender field
of `parse_video_filename` agrees with the strict `get_gender` wherever the
latter succeeds, and is `"Unknown"` exactly when `get_gender` raises for
that (trimmed) speaker code. -/
theorem gender_lenient_refines_strict (filename s l e d : String)
    (hsplit : pySplit '_' (stripExt filename) = [s, l, e, d]) :
    (∀ g, get_gender (pyStrip s) = Except.ok g →
      (parse_video_filename filename).gender = g) ∧
    ((parse_video_filename filename).gender = "Unknown" ↔
      get_gender (pyStrip s) =
        Except.error ("Unknown gender for speaker: " ++ pyStrip s)) := by
  rw [parse_eq_of_split hsplit]
  exact genderScan_versus_get_gender (pyStrip s)

theorem gender_lenient_refines_strict_witness :
    (pySplit '_' (stripExt "A1_EN_H_S1.mp4") = ["A1", "EN", "H", "S1"] ∧
      get_gender (pyStrip "A1") = Except.ok "M" ∧
      (parse_video_filename "A1_EN_H_S1.mp4").gender = "M") ∧
    (pySplit '_' (stripExt "Z9_EN_H_S1.mp4") = ["Z9", "EN", "H", "S1"] ∧
      ((parse_video_filename "Z9_EN_H_S1.mp4").gender = "Unknown" ↔
        get_gender (pyStrip "Z9") =
          Except.error ("Unknown gender for speaker: " ++ pyStrip "Z9"))) :=
  ⟨⟨by decide, by decide,
      (gender_lenient_refines_strict "A1_EN_H_S1.mp4" "A1" "EN" "H" "S1"
          (by decide)).1 "M" (by decide)⟩,
    ⟨by decide,
      (gender_lenient_refines_strict "Z9_EN_H_S1.mp4" "Z9" "EN" "H" "S1"
          (by decide)).2⟩⟩

/-- C1 counterexample: an I/O failure (`OSError`) raised by `shutil.copy2`
for the first file is not caught by `except (ValueError, KeyError)`: it
aborts the whole walk instead of incrementing `error_count` and continuing
to the second file. -/
theorem convert_io_error_aborts :
    convert_structure "dst"
      [("A1_EN_H_S1.mp4", ⟨none, some PyExc.osError⟩),
       ("A2_EN_H_S1.mp4", ⟨none, none⟩)] = Except.error PyExc.osError := by
  decide

/-- C1 (amended): a `ValueError` or `KeyError` raised while processing a
single file is caught at the per-file boundary, increments `error_count`
by one and lets the walk continue with the next file; an exception of any
other class — in particular the `OSError` of a failed `os.makedirs` or
`shutil.copy2` — is not caught and aborts the walk. -/
theorem convert_error_policy (dst filename : String) (ops : FsOps)
    (e : PyExc) (st : ConvState) (rest : List (String × FsOps))
    (hmedia : isMediaFile filename = true)
    (herr : processOne dst filename ops = Except.error e) :
    ((e = PyExc.valueError ∨ e = PyExc.keyError) →
      convertLoop dst st ((filename, ops) :: rest) =
        convertLoop dst { st with error_count := st.error_count + 1 } rest) ∧
    (e = PyExc.osError →
      convertLoop dst st ((filename, ops) :: rest) = Except.error e) := by
  constructor
  · intro h
    have hc : isCaught e = true := by rcases h with rfl | rfl <;> rfl
    rw [convertLoop, convertStep, if_pos hmedia, herr]
    simp [hc]
  · rintro rfl
    rw [convertLoop, convertStep, if_pos hmedia, herr]
    rfl

theorem convert_error_policy_witness :
    isMediaFile "A1_EN_H_S1.mp4" = true ∧
    processOne "dst" "A1_EN_H_S1.mp4" ⟨some PyExc.valueError, none⟩ =
      Except.error PyExc.valueError ∧
    convertLoop "dst" ⟨0, 0, []⟩
        [("A1_EN_H_S1.mp4", ⟨some PyExc.valueError, none⟩)] =
      convertLoop "dst" ⟨0, 0 + 1, []⟩ [] :=
  ⟨by decide, by decide,
    (convert_error_policy "dst" "A1_EN_H_S1.mp4"
        ⟨some PyExc.valueError, none⟩ PyExc.valueError ⟨0, 0, []⟩ []
        (by decide) (by decide)).1 (Or.inl rfl)⟩

/-- C7: every qualifying media file whose filesystem calls succeed —
whether its name is well-formed or falls back to the unknown record — is
copied to the destination path whose components are exactly
`dst / language / gender / emotion / detail / originalFilename`, taken
from the raw code fields `language`, `gender`, `emotion`, `detail` of the
decoded record (never the display fields `language_full`, `emotion_full`,
`sentence`), with the original filename preserved as the last
component. -/
theorem convert_destination_path (dst filename : String)
    (ops : FsOps) (st : ConvState) (rest : List (String × FsOps))
    (hmedia : isMediaFile filename = true)
    (hmk : ops.makedirsExc = none) (hcp : ops.copyExc = none) :
    convertLoop dst st ((filename, ops) :: rest) =
      convertLoop dst
        { st with success_count := st.success_count + 1,
                  copies := st.copies ++
                    [[dst, (parse_video_filename filename).language,
                      (parse_video_filename filename).gender,
                      (parse_video_filename filename).emotion,
                      (parse_video_filename filename).detail,
                      filename]] } rest := by
  have hpo : processOne dst filename ops =
      Except.ok [dst, (parse_video_filename filename).language,
        (parse_video_filename filename).gender,
        (parse_video_filename filename).emotion,
        (parse_video_filename filename).detail, filename] := by
    unfold processOne
    rw [hmk, hcp]
    rfl
  rw [convertLoop, convertStep, if_pos hmedia, hpo]

theorem convert_destination_path_witness :
    (isMediaFile "A1_EN_H_S1.mp4" = true ∧
      convertLoop "dst" ⟨0, 0, []⟩ [("A1_EN_H_S1.mp4", ⟨none, none⟩)] =
        convertLoop "dst"
          ⟨0 + 1, 0, [["dst", "EN", "M", "H", "S1", "A1_EN_H_S1.mp4"]]⟩ []) ∧
    (isMediaFile "clip.mp4" = true ∧
      convertLoop "dst" ⟨0, 0, []⟩ [("clip.mp4", ⟨none, none⟩)] =
        convertLoop "dst"
          ⟨0 + 1, 0,
            [["dst", "unknown", "Unknown", "unknown", "unknown",
              "clip.mp4"]]⟩ []) :=
  ⟨⟨by decide,
      convert_destination_path "dst" "A1_EN_H_S1.mp4" ⟨none, none⟩
        ⟨0, 0, []⟩ [] (by decide) rfl rfl⟩,
    ⟨by decide,
      convert_destination_path "dst" "clip.mp4" ⟨none, none⟩
        ⟨0, 0, []⟩ [] (by decide) rfl rfl⟩⟩

/-- C8: the walk processes exactly the files whose lower-cased name ends
with `.mp4`, `.avi` or `.mov`: any other file is skipped with the state —
both counters and the list of completed copies — unchanged, while a
qualifying file whose filesystem calls succeed is copied and counted. -/
theorem convert_extension_filter (dst filename : String) (ops : FsOps)
    (st : ConvState) (rest : List (String × FsOps)) :
    (isMediaFile filename = false →
      convertLoop dst st ((filename, ops) :: rest) =
        convertLoop dst st rest) ∧
    (isMediaFile filename = true → ops.makedirsExc = none →
      ops.copyExc = none →
      ∃ tgt, processOne dst filename ops = Except.ok tgt ∧
        convertLoop dst st ((filename, ops) :: rest) =
          convertLoop dst
            { st with success_count := st.success_count + 1,
                      copies := st.copies ++ [tgt] } rest) := by
  constructor
  · intro h
    rw [convertLoop, convertStep, if_neg (by rw [h]; exact Bool.false_ne_true)]
  · intro hmedia hmk hcp
    have hpo : processOne dst filename ops =
        Except.ok [dst, (parse_video_filename filename).language,
          (parse_video_filename filename).gender,
          (parse_video_filename filename).emotion,
          (parse_video_filename filename).detail, filename] := by
      unfold processOne
      rw [hmk, hcp]
      rfl
    exact ⟨_, hpo, by rw [convertLoop, convertStep, if_pos hmedia, hpo]⟩

theorem convert_extension_filter_witness :
    isMediaFile "notes.txt" = false ∧
    convertLoop "dst" ⟨0, 0, []⟩ [("notes.txt", ⟨none, none⟩)] =
      convertLoop "dst" ⟨0, 0, []⟩ [] :=
  ⟨by decide,
    (convert_extension_filter "dst" "notes.txt" ⟨none, none⟩ ⟨0, 0, []⟩
        []).1 (by decide)⟩

end VideoFilename
